import Mathlib

/-!
Shallow embedding of the VFIO device-migration code
(hw/vfio/migration.c and hw/core/vm-change-state-handler.c).

External collaborators (the kernel ioctl interface, the QEMUFile stream,
the data-channel file descriptor) are modelled as explicit traces passed
to the embedded functions: a kernel trace records what each ioctl made by
one call returned, a QEMUFile is the list of items written/read, and the
data channel is the list of results that successive read() calls return.
-/

namespace VfioMig

/-- The enum vfio_device_mig_state from the kernel UAPI, as used by
migration.c. -/
inductive vfio_device_mig_state where
  | ERROR
  | STOP
  | RUNNING
  | STOP_COPY
  | RESUMING
  | RUNNING_P2P
deriving DecidableEq, Repr

/-- Result of one VFIO_DEVICE_FEATURE (SET MIG_DEVICE_STATE) ioctl:
either the ioctl returned 0 and left a descriptor in mig_state->data_fd
(-1 meaning "no new descriptor"), or it returned nonzero. -/
inductive FeatureSetResult where
  | ok (data_fd : Int)
  | err
deriving DecidableEq, Repr

/-- Trace of the kernel's responses to the (at most) three ioctls one
call to vfio_migration_set_state can make: the SET to new_state, the SET
to recover_state, and the VFIO_DEVICE_RESET. -/
structure KernelTrace where
  setTarget : FeatureSetResult
  setRecover : FeatureSetResult
  resetOk : Bool
deriving DecidableEq, Repr

/-- How a C call ends: a normal return with an int code, or hw_error
(which never returns). -/
inductive CallResult where
  | ret (code : Int)
  | fatal
deriving DecidableEq, Repr

/-- The fields of struct VFIOMigration that vfio_migration_set_state
reads or writes: the recorded device state and the open data-channel
descriptor (-1 = none open), as initialized by vfio_migration_init. -/
structure VFIOMigration where
  device_state : vfio_device_mig_state
  data_fd : Int
deriving DecidableEq, Repr

/-- Everything observable about one call to vfio_migration_set_state:
how it returned, the VFIOMigration fields afterwards, and which
descriptors it closed. -/
structure SetStateOutcome where
  res : CallResult
  migration : VFIOMigration
  closed_fds : List Int
deriving DecidableEq, Repr

/-- vfio_migration_set_state (migration.c lines 71-130). The first ioctl
sets new_state; on failure a second ioctl sets recover_state, and if that
fails too a device reset is tried, hw_error-ing if even the reset fails.
On first-ioctl success, a returned data_fd is adopted unless one is
already open, which is reported as "data_fd out of sync": the new
descriptor is closed and the call fails without touching the recorded
state. -/
def vfio_migration_set_state (k : KernelTrace) (migration : VFIOMigration)
    (new_state recover_state : vfio_device_mig_state) : SetStateOutcome :=
  match k.setTarget with
  | .err =>
    -- "Try to put the device in some good state"
    match k.setRecover with
    | .err =>
      if k.resetOk then
        -- device was reset; recorded state not updated; return -1
        { res := .ret (-1), migration := migration, closed_fds := [] }
      else
        -- hw_error: "Device in error state, can't recover"
        { res := .fatal, migration := migration, closed_fds := [] }
    | .ok _ =>
      -- "Failed changing device state to new_state"
      { res := .ret (-1),
        migration := { migration with device_state := recover_state },
        closed_fds := [] }
  | .ok data_fd =>
    if data_fd ≠ -1 then
      if migration.data_fd ≠ -1 then
        -- "data_fd out of sync": close the new descriptor, fail
        { res := .ret (-1), migration := migration, closed_fds := [data_fd] }
      else
        { res := .ret 0,
          migration :=
            { migration with device_state := new_state, data_fd := data_fd },
          closed_fds := [] }
    else
      { res := .ret 0,
        migration := { migration with device_state := new_state },
        closed_fds := [] }

/-- Migration-stream flag values from migration.c lines 42-45. -/
def VFIO_MIG_FLAG_END_OF_STATE : Nat := 0xffffffffef100001

/-- Tag opening a device config-state section. -/
def VFIO_MIG_FLAG_DEV_CONFIG_STATE : Nat := 0xffffffffef100002

/-- Tag opening a device setup-state section. -/
def VFIO_MIG_FLAG_DEV_SETUP_STATE : Nat := 0xffffffffef100003

/-- Tag opening a device data-state section. -/
def VFIO_MIG_FLAG_DEV_DATA_STATE : Nat := 0xffffffffef100004

/-- One item of a QEMUFile stream: a 64-bit big-endian word written by
qemu_put_be64 / read by qemu_get_be64, or a raw payload of n bytes
written by qemu_put_buffer / drained by qemu_file_get_to_fd. Payload
bytes originate in the external data channel, so only their count is
tracked. Reading a word where a payload sits (or past the end of the
stream) is a framing mismatch that the embedding reports as a stream
error at the read site, matching the observable error returns of the C
code on such streams. -/
inductive QEMUFileItem where
  | be64 (w : Nat)
  | buffer (n : Nat)
deriving DecidableEq, Repr

/-- vfio_save_block (migration.c lines 221-242), driven by the trace of
read() results on the data channel. Returns none when the loop would
issue a read for which the trace supplies no result; otherwise returns
the function's int result (1 end-of-stream, 0 more data, -1 error), the
QEMUFile items it emitted, the amount added to bytes_transferred, and
the remaining read trace. The QEMUFile is modelled error-free, so the
final qemu_file_get_error result is 0. -/
def vfio_save_block (reads : List Int) :
    Option (Int × List QEMUFileItem × Int × List Int) :=
  match reads with
  | [] => none
  | data_size :: rest =>
    if data_size < 0 then some (-1, [], 0, rest)
    else if data_size = 0 then some (1, [], 0, rest)
    else
      some (0,
        [QEMUFileItem.be64 VFIO_MIG_FLAG_DEV_DATA_STATE,
         QEMUFileItem.be64 data_size.toNat,
         QEMUFileItem.buffer data_size.toNat],
        data_size, rest)

/-- The do-while loop of vfio_save_complete_precopy (lines 258-263):
call vfio_save_block until it returns nonzero, returning the loop's
final ret together with everything emitted and the total added to
bytes_transferred. -/
def vfio_save_precopy_loop : List Int → Option (Int × List QEMUFileItem × Int)
  | [] => none
  | data_size :: rest =>
    if data_size < 0 then some (-1, [], 0)
    else if data_size = 0 then some (1, [], 0)
    else
      match vfio_save_precopy_loop rest with
      | none => none
      | some (ret, items, b) =>
        some (ret,
          QEMUFileItem.be64 VFIO_MIG_FLAG_DEV_DATA_STATE ::
          QEMUFileItem.be64 data_size.toNat ::
          QEMUFileItem.buffer data_size.toNat :: items,
          data_size + b)

/-- VFIO_MIG_DATA_BUFFER_SIZE (migration.c line 47): the fixed capacity
of the transfer buffer, and hence the bound read() is called with, so
every read result is at most this. -/
def VFIO_MIG_DATA_BUFFER_SIZE : Nat := 1024 * 1024

/-- Number of 64-bit words equal to t in a stream. -/
def countTag (t : Nat) : List QEMUFileItem → Nat
  | [] => 0
  | QEMUFileItem.be64 w :: rest => (if w = t then 1 else 0) + countTag t rest
  | QEMUFileItem.buffer _ :: rest => countTag t rest

/-- Observable outcome of one vfio_save_complete_precopy call. -/
structure PrecopyOutcome where
  res : CallResult
  migration : VFIOMigration
  emitted : List QEMUFileItem
  bytes_transferred : Int
deriving DecidableEq, Repr

/-- vfio_save_complete_precopy (migration.c lines 244-279): transition
to STOP_COPY with recovery STOP, run the save-block loop, emit the
END_OF_STATE marker, then transition to STOP with recovery ERROR.
k1 and k2 are the kernel traces of the two vfio_migration_set_state
calls; reads is the data-channel read trace; bytes the value of the
global bytes_transferred before the call. -/
def vfio_save_complete_precopy (k1 k2 : KernelTrace) (m : VFIOMigration)
    (reads : List Int) (bytes : Int) : Option PrecopyOutcome :=
  let o1 := vfio_migration_set_state k1 m .STOP_COPY .STOP
  match o1.res with
  | .fatal =>
    some { res := .fatal, migration := o1.migration, emitted := [],
           bytes_transferred := bytes }
  | .ret r =>
    if r ≠ 0 then
      some { res := .ret r, migration := o1.migration, emitted := [],
             bytes_transferred := bytes }
    else
      match vfio_save_precopy_loop reads with
      | none => none
      | some (lret, items, b) =>
        if lret < 0 then
          some { res := .ret lret, migration := o1.migration,
                 emitted := items, bytes_transferred := bytes + b }
        else
          let o2 := vfio_migration_set_state k2 o1.migration .STOP .ERROR
          some { res := o2.res, migration := o2.migration,
                 emitted :=
                   items ++ [QEMUFileItem.be64 VFIO_MIG_FLAG_END_OF_STATE],
                 bytes_transferred := bytes + b }

/-- qemu_get_be64 on the item-level stream model: succeeds exactly when
the next item is a 64-bit word. -/
def qemu_get_be64 : List QEMUFileItem → Option (Nat × List QEMUFileItem)
  | QEMUFileItem.be64 w :: rest => some (w, rest)
  | _ => none

/-- vfio_load_device_config_state (migration.c lines 163-188). The
device-specific vfio_load_config hook is an external collaborator,
passed in as a function from the stream to (hook result, remaining
stream); a device without the hook is the function that consumes
nothing and returns 0. After the hook, the very next word must be
END_OF_STATE, else -EINVAL (-22). The QEMUFile itself is modelled
error-free, so the final qemu_file_get_error result is 0. -/
def vfio_load_device_config_state
    (loadConfig : List QEMUFileItem → Int × List QEMUFileItem)
    (f : List QEMUFileItem) : Int × List QEMUFileItem :=
  let (ret, f1) := loadConfig f
  if ret ≠ 0 then (ret, f1)
  else
    match qemu_get_be64 f1 with
    | some (data, f2) =>
      if data = VFIO_MIG_FLAG_END_OF_STATE then (0, f2) else (-22, f2)
    | none => (-22, f1)

/-- vfio_load_state (migration.c lines 312-364): read a 64-bit tag;
END_OF_STATE ends the loop; a config section is delegated to
vfio_load_device_config_state and its result returned directly; a setup
section must be immediately closed by END_OF_STATE and then the call
returns; a data section reads a 64-bit size and, when nonzero, drains
that many bytes to the device fd (vfio_load_buffer) and loops; any other
tag is -EINVAL (-22). Each branch returns the remaining stream alongside
the int result. A failed word read (exhausted or misframed stream) takes
the error return the C code takes on that stream. -/
def vfio_load_state
    (loadConfig : List QEMUFileItem → Int × List QEMUFileItem) :
    List QEMUFileItem → Int × List QEMUFileItem
  | [] => (-22, [])
  | QEMUFileItem.buffer n :: f1 => (-22, QEMUFileItem.buffer n :: f1)
  | QEMUFileItem.be64 data :: f1 =>
    if data = VFIO_MIG_FLAG_END_OF_STATE then (0, f1)
    else if data = VFIO_MIG_FLAG_DEV_CONFIG_STATE then
      vfio_load_device_config_state loadConfig f1
    else if data = VFIO_MIG_FLAG_DEV_SETUP_STATE then
      match f1 with
      | QEMUFileItem.be64 d2 :: f2 =>
        if d2 = VFIO_MIG_FLAG_END_OF_STATE then (0, f2)
        else (-22, f2)
      | _ => (-22, f1)
    else if data = VFIO_MIG_FLAG_DEV_DATA_STATE then
      match f1 with
      | QEMUFileItem.be64 data_size :: f2 =>
        if data_size = 0 then vfio_load_state loadConfig f2
        else
          match f2 with
          | QEMUFileItem.buffer n :: f3 =>
            if n = data_size then vfio_load_state loadConfig f3
            else (-5, QEMUFileItem.buffer n :: f3)
          | _ => (-5, f2)
      | _ => (-22, f1)
    else (-22, f1)

/-- The MigrationStatus values the notifier can observe (from the
external migration engine's MigrationState.state). -/
inductive MigrationStatus where
  | NONE
  | SETUP
  | CANCELLING
  | CANCELLED
  | ACTIVE
  | POSTCOPY_ACTIVE
  | COMPLETED
  | FAILED
deriving DecidableEq, Repr

/-- vfio_migration_state_notifier (migration.c lines 406-424): on
CANCELLING, CANCELLED or FAILED, zero the global bytes_transferred and
request a transition to RUNNING with recovery ERROR (the set-state
result itself is discarded by the notifier); on any other status do
nothing. Returns the (bytes_transferred, VFIOMigration) memory state
after the call; k is the kernel trace for the set-state call it may
make. -/
def vfio_migration_state_notifier (k : KernelTrace) (s : MigrationStatus)
    (bytes : Int) (m : VFIOMigration) : Int × VFIOMigration :=
  match s with
  | .CANCELLING | .CANCELLED | .FAILED =>
    (0, (vfio_migration_set_state k m .RUNNING .ERROR).migration)
  | _ => (bytes, m)

/-- The resource-release calls vfio_migration_finalize (and the
vfio_migration_exit it calls) can perform, in program order. -/
inductive FinalizeAction where
  | remove_migration_state_change_notifier
  | del_vm_change_state_handler
  | unregister_savevm
  | free_data_buffer
  | free_migration
  | del_blocker
  | free_blocker
deriving DecidableEq, Repr

/-- The two nullable pointers of VFIODevice that
vfio_migration_finalize tests and clears: migration (the
VFIOMigration context) and migration_blocker. Each field records
whether the pointer is non-NULL. -/
structure VFIODeviceFin where
  migration : Bool
  migration_blocker : Bool
deriving DecidableEq, Repr

/-- vfio_migration_exit (migration.c lines 426-431): free the data
buffer and the VFIOMigration struct; the caller's migration pointer is
then NULL. -/
def vfio_migration_exit_actions : List FinalizeAction :=
  [.free_data_buffer, .free_migration]

/-- vfio_migration_finalize (migration.c lines 543-559): if the
migration context exists, unhook the migration-state notifier, the VM
change-state handler and the savevm registration, then
vfio_migration_exit (which NULLs the pointer); if a migration blocker
exists, delete and free it and NULL the pointer. Returns the device
fields afterwards and the release actions performed, in order. -/
def vfio_migration_finalize (d : VFIODeviceFin) :
    VFIODeviceFin × List FinalizeAction :=
  let (d1, a1) :=
    if d.migration then
      ({ d with migration := false },
       [FinalizeAction.remove_migration_state_change_notifier,
        FinalizeAction.del_vm_change_state_handler,
        FinalizeAction.unregister_savevm] ++ vfio_migration_exit_actions)
    else (d, [])
  let (d2, a2) :=
    if d1.migration_blocker then
      ({ d1 with migration_blocker := false },
       [FinalizeAction.del_blocker, FinalizeAction.free_blocker])
    else (d1, [])
  (d2, a1 ++ a2)

end VfioMig

namespace QdevTree

mutual

/-- A qdev DeviceState as vm-change-state-handler.c sees it: only the
parent_bus pointer (NULL or a bus). -/
inductive DeviceState where
  | mk (parent_bus : Option BusState)

/-- A qdev BusState: only its parent device pointer (NULL or a
device). -/
inductive BusState where
  | mk (parent : Option DeviceState)

end

/-- qdev_get_dev_tree_depth (vm-change-state-handler.c lines 22-37):
for (depth = 0; dev; depth++) { bus = dev->parent_bus; if (!bus) break;
dev = bus->parent; }. A device with no parent bus breaks out at depth 0;
a device whose bus has no parent device exits the loop after one
increment. -/
def qdev_get_dev_tree_depth : DeviceState → Nat
  | .mk none => 0
  | .mk (some (.mk none)) => 1
  | .mk (some (.mk (some d))) => 1 + qdev_get_dev_tree_depth d

/-- qdev_add_vm_change_state_handler_full (vm-change-state-handler.c
lines 63-71) computes the device's tree depth and passes it as the
priority to qemu_add_vm_change_state_handler_prio_full (an external
collaborator); the embedding returns the priority passed. -/
def qdev_add_vm_change_state_handler_full (dev : DeviceState) : Nat :=
  qdev_get_dev_tree_depth dev

/-- The chain of buses traversed by the ancestor walk the claim
describes: the device's owning bus, then the owning bus of its parent
device, and so on, ending when a device has no parent bus or a bus has
no parent device. One bus per ancestor hop. -/
def ancestorBuses : DeviceState → List BusState
  | .mk none => []
  | .mk (some (.mk none)) => [.mk none]
  | .mk (some (.mk (some d))) => BusState.mk (some d) :: ancestorBuses d

end QdevTree

namespace VfioMig

/-- C1, counterexample. The claim states that after every call to
vfio_migration_set_state the recorded MigrationState is the target or
the recovery state, or the call hw_errors. Concrete refutation: with
recorded state RUNNING and data channel fd 3 open, a request for
STOP_COPY (recovery STOP) whose first ioctl succeeds but hands back a
second descriptor 5 takes the data_fd-out-of-sync path: the call
returns -1, does not hw_error, and leaves the recorded state RUNNING,
which is neither the target nor the recovery state. -/
theorem C1_counterexample :
    ¬ (let o := vfio_migration_set_state
          { setTarget := .ok 5, setRecover := .err, resetOk := true }
          { device_state := .RUNNING, data_fd := 3 } .STOP_COPY .STOP
       o.migration.device_state = .STOP_COPY ∨
       o.migration.device_state = .STOP ∨ o.res = .fatal) := by
  decide

/-- C1, amended: after every call to vfio_migration_set_state the
recorded MigrationState is the requested target, the recovery state, or
unchanged from its value before the call (the latter on the
data_fd-out-of-sync path and on the path where recovery fails but the
device reset succeeds), or the call signals hw_error; it is never left
in any other value. -/
theorem vfio_migration_set_state_known_state (k : KernelTrace)
    (m : VFIOMigration) (ns rs : vfio_device_mig_state) :
    (vfio_migration_set_state k m ns rs).migration.device_state = ns ∨
    (vfio_migration_set_state k m ns rs).migration.device_state = rs ∨
    (vfio_migration_set_state k m ns rs).migration.device_state =
      m.device_state ∨
    (vfio_migration_set_state k m ns rs).res = .fatal := by
  rcases k with ⟨t, r, rst⟩
  rcases t with fd | _
  · by_cases h1 : fd ≠ -1 <;> by_cases h2 : m.data_fd ≠ -1 <;>
      simp [vfio_migration_set_state, h1, h2]
  · rcases r with fd2 | _
    · simp [vfio_migration_set_state]
    · cases rst <;> simp [vfio_migration_set_state]

/-- C2: when the kernel accepts the target state and returns a new data
channel descriptor while one is already open, vfio_migration_set_state
returns -1, closes exactly the newly received descriptor, and keeps the
previously open descriptor as the active one. -/
theorem vfio_migration_set_state_data_fd_desync (k : KernelTrace)
    (m : VFIOMigration) (ns rs : vfio_device_mig_state) (fd : Int)
    (hk : k.setTarget = .ok fd) (hnew : fd ≠ -1) (hopen : m.data_fd ≠ -1) :
    (vfio_migration_set_state k m ns rs).res = .ret (-1) ∧
    (vfio_migration_set_state k m ns rs).closed_fds = [fd] ∧
    (vfio_migration_set_state k m ns rs).migration.data_fd = m.data_fd := by
  rcases k with ⟨t, r, rst⟩
  cases hk
  simp [vfio_migration_set_state, hnew, hopen]

/-- C2 witness: the desync theorem at kernel trace (ok 5, err, reset
ok), open descriptor 3, request STOP_COPY with recovery STOP. -/
theorem vfio_migration_set_state_data_fd_desync_w :
    (5 : Int) ≠ -1 ∧ (3 : Int) ≠ -1 ∧
    ((vfio_migration_set_state
        { setTarget := .ok 5, setRecover := .err, resetOk := true }
        { device_state := .RUNNING, data_fd := 3 } .STOP_COPY .STOP).res =
      .ret (-1) ∧
     (vfio_migration_set_state
        { setTarget := .ok 5, setRecover := .err, resetOk := true }
        { device_state := .RUNNING, data_fd := 3 } .STOP_COPY .STOP).closed_fds
       = [5] ∧
     (vfio_migration_set_state
        { setTarget := .ok 5, setRecover := .err, resetOk := true }
        { device_state := .RUNNING, data_fd := 3 } .STOP_COPY .STOP).migration.data_fd
       = ({ device_state := .RUNNING, data_fd := 3 } : VFIOMigration).data_fd) :=
  ⟨by decide, by decide,
   vfio_migration_set_state_data_fd_desync
     { setTarget := .ok 5, setRecover := .err, resetOk := true }
     { device_state := .RUNNING, data_fd := 3 } .STOP_COPY .STOP 5
     rfl (by decide) (by decide)⟩

/-- C3: when the kernel rejects the target state but accepts the
recovery state, vfio_migration_set_state records the recovery state as
the current device state and returns the error -1 (a non-fatal
rejection); in particular with target STOP_COPY and recovery STOP the
recorded state ends as STOP and the call reports failure. -/
theorem vfio_migration_set_state_recovery_recorded (k : KernelTrace)
    (m : VFIOMigration) (ns rs : vfio_device_mig_state) (fd : Int)
    (ht : k.setTarget = .err) (hr : k.setRecover = .ok fd) :
    (vfio_migration_set_state k m ns rs).migration.device_state = rs ∧
    (vfio_migration_set_state k m ns rs).res = .ret (-1) := by
  rcases k with ⟨t, r, rst⟩
  cases ht
  cases hr
  simp [vfio_migration_set_state]

/-- C3 witness: the rejection theorem at target STOP_COPY, recovery
STOP: the kernel rejects STOP_COPY and accepts STOP, so the recorded
state is STOP and the call returns -1. -/
theorem vfio_migration_set_state_recovery_recorded_w :
    ((vfio_migration_set_state
        { setTarget := .err, setRecover := .ok (-1), resetOk := true }
        { device_state := .STOP, data_fd := -1 } .STOP_COPY .STOP).migration.device_state
      = .STOP ∧
     (vfio_migration_set_state
        { setTarget := .err, setRecover := .ok (-1), resetOk := true }
        { device_state := .STOP, data_fd := -1 } .STOP_COPY .STOP).res =
      .ret (-1)) :=
  vfio_migration_set_state_recovery_recorded
    { setTarget := .err, setRecover := .ok (-1), resetOk := true }
    { device_state := .STOP, data_fd := -1 } .STOP_COPY .STOP (-1) rfl rfl

/-- C10: on the two error paths of vfio_migration_set_state that do not
set a recovery state — (a) the kernel accepts the target but hands back
a second data-channel descriptor while one is already open, and (b)
both state-set ioctls fail but the device reset succeeds — the recorded
device_state field is left unchanged from its value before the call. -/
theorem vfio_migration_set_state_frame_device_state (k : KernelTrace)
    (m : VFIOMigration) (ns rs : vfio_device_mig_state)
    (h : (∃ fd, k.setTarget = .ok fd ∧ fd ≠ -1 ∧ m.data_fd ≠ -1) ∨
         (k.setTarget = .err ∧ k.setRecover = .err ∧ k.resetOk = true)) :
    (vfio_migration_set_state k m ns rs).migration.device_state =
      m.device_state := by
  rcases k with ⟨t, r, rst⟩
  rcases h with ⟨fd, hk, hnew, hopen⟩ | ⟨ht, hr, hrst⟩
  · cases hk
    simp [vfio_migration_set_state, hnew, hopen]
  · cases ht
    cases hr
    cases hrst
    simp [vfio_migration_set_state]

/-- A vfio_migration_set_state call that returns 0 has recorded the
requested target state. -/
theorem vfio_migration_set_state_ok_device_state (k : KernelTrace)
    (m : VFIOMigration) (ns rs : vfio_device_mig_state)
    (h : (vfio_migration_set_state k m ns rs).res = .ret 0) :
    (vfio_migration_set_state k m ns rs).migration.device_state = ns := by
  rcases k with ⟨t, r, rst⟩
  rcases t with fd | _
  · by_cases h1 : fd ≠ -1 <;> by_cases h2 : m.data_fd ≠ -1 <;>
      simp [vfio_migration_set_state, h1, h2] at h ⊢
  · rcases r with fd2 | _
    · simp [vfio_migration_set_state] at h
    · cases rst <;> simp [vfio_migration_set_state] at h

/-- The save-block loop on a trace of positive in-bounds reads followed
by the end-of-stream read: it ends with ret 1, emits one data section
per block, no end markers, and accumulates the sum of the block sizes.
-/
theorem vfio_save_precopy_loop_append_zero (blocks : List Int)
    (hb : ∀ b ∈ blocks, 0 < b ∧ b ≤ (VFIO_MIG_DATA_BUFFER_SIZE : Nat)) :
    ∃ items,
      vfio_save_precopy_loop (blocks ++ [0]) = some (1, items, blocks.sum) ∧
      countTag VFIO_MIG_FLAG_DEV_DATA_STATE items = blocks.length ∧
      countTag VFIO_MIG_FLAG_END_OF_STATE items = 0 := by
  induction blocks with
  | nil =>
    exact ⟨[], by simp [vfio_save_precopy_loop], rfl, rfl⟩
  | cons b bs ih =>
    obtain ⟨hb0, hble⟩ := hb b (List.mem_cons_self b bs)
    obtain ⟨items, hl, hc1, hc2⟩ :=
      ih fun x hx => hb x (List.mem_cons_of_mem b hx)
    have hbn : b.toNat ≤ VFIO_MIG_DATA_BUFFER_SIZE := by
      simpa using Int.toNat_le_toNat hble
    have hd : b.toNat ≠ VFIO_MIG_FLAG_DEV_DATA_STATE := by
      simp only [VFIO_MIG_DATA_BUFFER_SIZE] at hbn
      simp only [VFIO_MIG_FLAG_DEV_DATA_STATE]
      omega
    have he : b.toNat ≠ VFIO_MIG_FLAG_END_OF_STATE := by
      simp only [VFIO_MIG_DATA_BUFFER_SIZE] at hbn
      simp only [VFIO_MIG_FLAG_END_OF_STATE]
      omega
    refine ⟨QEMUFileItem.be64 VFIO_MIG_FLAG_DEV_DATA_STATE ::
      QEMUFileItem.be64 b.toNat ::
      QEMUFileItem.buffer b.toNat :: items, ?_, ?_, ?_⟩
    · simp [vfio_save_precopy_loop, not_lt.mpr hb0.le, hb0.ne', hl,
        add_comm]
    · simp [countTag, hd, hc1, add_comm]
    · have hde : VFIO_MIG_FLAG_DEV_DATA_STATE ≠ VFIO_MIG_FLAG_END_OF_STATE := by
        simp [VFIO_MIG_FLAG_DEV_DATA_STATE, VFIO_MIG_FLAG_END_OF_STATE]
      simp [countTag, he, hc2, hde]

/-- C10 witness: path (b) at a concrete input — both ioctls fail, the
reset succeeds, and the recorded state stays RESUMING. -/
theorem vfio_migration_set_state_frame_device_state_w :
    (vfio_migration_set_state
       { setTarget := .err, setRecover := .err, resetOk := true }
       { device_state := .RESUMING, data_fd := 4 } .STOP .ERROR).migration.device_state
      = ({ device_state := .RESUMING, data_fd := 4 } : VFIOMigration).device_state :=
  vfio_migration_set_state_frame_device_state
    { setTarget := .err, setRecover := .err, resetOk := true }
    { device_state := .RESUMING, data_fd := 4 } .STOP .ERROR
    (Or.inr ⟨rfl, rfl, rfl⟩)

/-- countTag distributes over stream concatenation. -/
theorem countTag_append (t : Nat) (a b : List QEMUFileItem) :
    countTag t (a ++ b) = countTag t a + countTag t b := by
  induction a with
  | nil => simp [countTag]
  | cons i rest ih =>
    cases i <;> simp [countTag, ih, Nat.add_assoc]

/-- C4: a successful vfio_save_complete_precopy run starting from
device state STOP with a read trace of in-bounds non-empty blocks
followed by the end-of-stream read: the device is first transitioned to
STOP_COPY (recovery STOP), the call returns 0, the stream gains exactly
one data section per block plus a single END_OF_STATE marker as its
last item, the device ends recorded in STOP (set by the second
transition, whose recovery target is ERROR), and bytes_transferred
grows by the sum of the block sizes. -/
theorem vfio_save_complete_precopy_spec (k1 k2 : KernelTrace)
    (m : VFIOMigration) (blocks : List Int) (bytes : Int)
    (hstop : m.device_state = .STOP)
    (hb : ∀ b ∈ blocks, 0 < b ∧ b ≤ (VFIO_MIG_DATA_BUFFER_SIZE : Nat))
    (h1 : (vfio_migration_set_state k1 m .STOP_COPY .STOP).res = .ret 0)
    (h2 : (vfio_migration_set_state k2
            (vfio_migration_set_state k1 m .STOP_COPY .STOP).migration
            .STOP .ERROR).res = .ret 0) :
    ∃ out, vfio_save_complete_precopy k1 k2 m (blocks ++ [0]) bytes =
        some out ∧
      out.res = .ret 0 ∧
      countTag VFIO_MIG_FLAG_DEV_DATA_STATE out.emitted = blocks.length ∧
      countTag VFIO_MIG_FLAG_END_OF_STATE out.emitted = 1 ∧
      out.emitted.getLast? =
        some (QEMUFileItem.be64 VFIO_MIG_FLAG_END_OF_STATE) ∧
      out.migration.device_state = .STOP ∧
      out.bytes_transferred = bytes + blocks.sum := by
  obtain ⟨items, hl, hc1, hc2⟩ := vfio_save_precopy_loop_append_zero blocks hb
  have hde : VFIO_MIG_FLAG_END_OF_STATE ≠ VFIO_MIG_FLAG_DEV_DATA_STATE := by
    simp [VFIO_MIG_FLAG_DEV_DATA_STATE, VFIO_MIG_FLAG_END_OF_STATE]
  refine ⟨PrecopyOutcome.mk
      (vfio_migration_set_state k2
        (vfio_migration_set_state k1 m .STOP_COPY .STOP).migration
        .STOP .ERROR).res
      (vfio_migration_set_state k2
        (vfio_migration_set_state k1 m .STOP_COPY .STOP).migration
        .STOP .ERROR).migration
      (items ++ [QEMUFileItem.be64 VFIO_MIG_FLAG_END_OF_STATE])
      (bytes + blocks.sum), ?_, h2, ?_, ?_, ?_, ?_, rfl⟩
  · simp only [vfio_save_complete_precopy]
    rw [h1, hl]
    norm_num
  · simp [countTag_append, countTag, hde, hc1]
  · simp [countTag_append, countTag, hc2]
  · simp
  · exact vfio_migration_set_state_ok_device_state k2 _ _ _ h2

end VfioMig

namespace VfioMig

/-- C4 witness: two blocks of 3 and 5 bytes then end-of-stream, device
in STOP with channel fd 7 open, both kernel transitions accepted
without a new descriptor: the call emits 2 data sections and one final
END_OF_STATE marker, ends in STOP, and bytes_transferred grows from 100
to 108. -/
theorem vfio_save_complete_precopy_spec_w :
    (({ device_state := .STOP, data_fd := 7 } : VFIOMigration).device_state
      = .STOP) ∧
    (∀ b ∈ ([3, 5] : List Int), 0 < b ∧
      b ≤ (VFIO_MIG_DATA_BUFFER_SIZE : Nat)) ∧
    ((vfio_migration_set_state
        { setTarget := .ok (-1), setRecover := .err, resetOk := false }
        { device_state := .STOP, data_fd := 7 } .STOP_COPY .STOP).res =
      .ret 0) ∧
    ((vfio_migration_set_state
        { setTarget := .ok (-1), setRecover := .err, resetOk := false }
        (vfio_migration_set_state
          { setTarget := .ok (-1), setRecover := .err, resetOk := false }
          { device_state := .STOP, data_fd := 7 } .STOP_COPY .STOP).migration
        .STOP .ERROR).res = .ret 0) ∧
    (∃ out,
      vfio_save_complete_precopy
        { setTarget := .ok (-1), setRecover := .err, resetOk := false }
        { setTarget := .ok (-1), setRecover := .err, resetOk := false }
        { device_state := .STOP, data_fd := 7 }
        (([3, 5] : List Int) ++ [0]) 100 = some out ∧
      out.res = .ret 0 ∧
      countTag VFIO_MIG_FLAG_DEV_DATA_STATE out.emitted =
        ([3, 5] : List Int).length ∧
      countTag VFIO_MIG_FLAG_END_OF_STATE out.emitted = 1 ∧
      out.emitted.getLast? =
        some (QEMUFileItem.be64 VFIO_MIG_FLAG_END_OF_STATE) ∧
      out.migration.device_state = .STOP ∧
      out.bytes_transferred = 100 + ([3, 5] : List Int).sum) :=
  ⟨rfl, by decide, by decide, by decide,
   vfio_save_complete_precopy_spec
     { setTarget := .ok (-1), setRecover := .err, resetOk := false }
     { setTarget := .ok (-1), setRecover := .err, resetOk := false }
     { device_state := .STOP, data_fd := 7 } [3, 5] 100
     rfl (by decide) (by decide) (by decide)⟩

end VfioMig

namespace VfioMig

/-- C6: on a stream whose next top-level tag is none of END_OF_STATE,
DEV_CONFIG_STATE, DEV_SETUP_STATE or DEV_DATA_STATE, vfio_load_state
returns -EINVAL (-22) immediately after reading that one tag: the
remaining stream is untouched and no resynchronization is attempted. -/
theorem vfio_load_state_unknown_tag
    (loadConfig : List QEMUFileItem → Int × List QEMUFileItem)
    (t : Nat) (s : List QEMUFileItem)
    (h1 : t ≠ VFIO_MIG_FLAG_END_OF_STATE)
    (h2 : t ≠ VFIO_MIG_FLAG_DEV_CONFIG_STATE)
    (h3 : t ≠ VFIO_MIG_FLAG_DEV_SETUP_STATE)
    (h4 : t ≠ VFIO_MIG_FLAG_DEV_DATA_STATE) :
    vfio_load_state loadConfig (QEMUFileItem.be64 t :: s) = (-22, s) := by
  rw [vfio_load_state.eq_def]
  simp [h1, h2, h3, h4]

/-- C6 witness: tag 0xdeadbeef followed by two more words is rejected
with -22 leaving those words unread. -/
theorem vfio_load_state_unknown_tag_w :
    ((0xdeadbeef : Nat) ≠ VFIO_MIG_FLAG_END_OF_STATE ∧
     (0xdeadbeef : Nat) ≠ VFIO_MIG_FLAG_DEV_CONFIG_STATE ∧
     (0xdeadbeef : Nat) ≠ VFIO_MIG_FLAG_DEV_SETUP_STATE ∧
     (0xdeadbeef : Nat) ≠ VFIO_MIG_FLAG_DEV_DATA_STATE) ∧
    vfio_load_state (fun f => (0, f))
      [QEMUFileItem.be64 0xdeadbeef, QEMUFileItem.be64 7,
       QEMUFileItem.be64 VFIO_MIG_FLAG_END_OF_STATE] =
      (-22, [QEMUFileItem.be64 7,
             QEMUFileItem.be64 VFIO_MIG_FLAG_END_OF_STATE]) :=
  ⟨⟨by decide, by decide, by decide, by decide⟩,
   vfio_load_state_unknown_tag (fun f => (0, f)) 0xdeadbeef
     [QEMUFileItem.be64 7, QEMUFileItem.be64 VFIO_MIG_FLAG_END_OF_STATE]
     (by decide) (by decide) (by decide) (by decide)⟩

end VfioMig

namespace VfioMig

/-- C7: for every kernel trace and prior state, the migration-status
notifier on CANCELLING, CANCELLED or FAILED zeroes the process-wide
bytes_transferred counter and requests a device transition to RUNNING
with recovery ERROR (the resulting VFIOMigration is exactly that of the
requested vfio_migration_set_state call); on every other status it
leaves both the counter and the VFIOMigration unchanged. -/
theorem vfio_migration_state_notifier_spec (k : KernelTrace)
    (st : MigrationStatus) (bytes : Int) (m : VFIOMigration) :
    ((st = .CANCELLING ∨ st = .CANCELLED ∨ st = .FAILED) →
      vfio_migration_state_notifier k st bytes m =
        (0, (vfio_migration_set_state k m .RUNNING .ERROR).migration)) ∧
    ((st ≠ .CANCELLING ∧ st ≠ .CANCELLED ∧ st ≠ .FAILED) →
      vfio_migration_state_notifier k st bytes m = (bytes, m)) := by
  cases st <;> simp [vfio_migration_state_notifier]

/-- C7 witness: status CANCELLED while the device is in STOP_COPY with
channel fd 7: the counter is reset from 42 to 0 and the device moves to
the RUNNING transition's outcome; status ACTIVE leaves everything
unchanged. -/
theorem vfio_migration_state_notifier_spec_w :
    (vfio_migration_state_notifier
        { setTarget := .ok (-1), setRecover := .err, resetOk := true }
        .CANCELLED 42 { device_state := .STOP_COPY, data_fd := 7 } =
      (0, (vfio_migration_set_state
            { setTarget := .ok (-1), setRecover := .err, resetOk := true }
            { device_state := .STOP_COPY, data_fd := 7 }
            .RUNNING .ERROR).migration)) ∧
    (vfio_migration_state_notifier
        { setTarget := .ok (-1), setRecover := .err, resetOk := true }
        .ACTIVE 42 { device_state := .STOP_COPY, data_fd := 7 } =
      (42, { device_state := .STOP_COPY, data_fd := 7 })) :=
  ⟨(vfio_migration_state_notifier_spec
      { setTarget := .ok (-1), setRecover := .err, resetOk := true }
      .CANCELLED 42 { device_state := .STOP_COPY, data_fd := 7 }).1
      (Or.inr (Or.inl rfl)),
   (vfio_migration_state_notifier_spec
      { setTarget := .ok (-1), setRecover := .err, resetOk := true }
      .ACTIVE 42 { device_state := .STOP_COPY, data_fd := 7 }).2
      ⟨by decide, by decide, by decide⟩⟩

/-- C8: vfio_migration_finalize is idempotent — after one call has
completed, both nullable pointers are NULL, so a second call performs
no release action at all (no unregistration, no free, no blocker
deletion) and leaves the device fields as the first call left them. -/
theorem vfio_migration_finalize_idempotent (d : VFIODeviceFin) :
    vfio_migration_finalize (vfio_migration_finalize d).1 =
      ((vfio_migration_finalize d).1, []) := by
  rcases d with ⟨m, b⟩
  cases m <;> cases b <;> rfl

end VfioMig

namespace QdevTree

/-- C9: qdev_get_dev_tree_depth returns the (non-negative) number of
ancestor hops — one per bus traversed on the walk device, owning bus,
parent device, and so on; a device with no parent bus has depth 0; and
qdev_add_vm_change_state_handler_full passes exactly this depth as the
priority when registering the run-state callback pair. -/
theorem qdev_get_dev_tree_depth_spec (dev : DeviceState) :
    qdev_get_dev_tree_depth dev = (ancestorBuses dev).length ∧
    qdev_get_dev_tree_depth (DeviceState.mk none) = 0 ∧
    qdev_add_vm_change_state_handler_full dev = qdev_get_dev_tree_depth dev := by
  refine ⟨?_, rfl, rfl⟩
  induction dev using qdev_get_dev_tree_depth.induct with
  | case1 => rfl
  | case2 => rfl
  | case3 d ih =>
    simp [qdev_get_dev_tree_depth, ancestorBuses, ih, Nat.add_comm]

end QdevTree
